import Mathlib

/-!
Shallow embedding of the guessing-game core from `src/src/main.rs`.

The program is an `iced` GUI application whose logic core is:
* the `GuessingGame` state struct (secret_number, guess, message),
* the `Message` event enum (GuessInputChanged, GuessButtonPressed),
* `GuessingGame::new` (initial state) and `GuessingGame::update`
  (the state transition function).

Machine integers (`u32`) are modelled as `Nat` with an explicit `< 2^32`
bound where overflow matters (the parse step).  Rust's
`str::trim().parse::<u32>()` is modelled by `rustTrim` and `parseU32`
below, following the Rust standard-library semantics: trim removes
leading/trailing whitespace characters; `u32::from_str` accepts an
optional leading `+` followed by one or more ASCII decimal digits, and
fails on the empty string, on any non-digit character (so also on a
leading `-` or a `.`), and when the value does not fit in 32 bits.
-/

namespace GuessingGameSpec

/-- Whitespace predicate used by the trim step: the embedding covers the
ASCII whitespace characters (space, tab, carriage return, newline). -/
def isWsChar (c : Char) : Bool := c.isWhitespace

/-- `str::trim` on the underlying character list: drop whitespace from
the front, then from the back. -/
def trimChars (l : List Char) : List Char :=
  ((l.dropWhile isWsChar).reverse.dropWhile isWsChar).reverse

/-- Rust's `self.guess.trim()` as a `String` operation. -/
def rustTrim (s : String) : String := String.mk (trimChars s.data)

/-- Value of a list of decimal digit characters, most significant first. -/
def digitsVal (l : List Char) : Nat :=
  l.foldl (fun acc c => acc * 10 + (c.toNat - ('0').toNat)) 0

/-- Digit-run step of `u32::from_str`: one or more ASCII digits whose
value fits in `u32`. -/
def parseDigits (l : List Char) : Option Nat :=
  if l ≠ [] ∧ l.all Char.isDigit then
    if digitsVal l < 2 ^ 32 then some (digitsVal l) else none
  else none

/-- Rust's `str::parse::<u32>()` (i.e. `u32::from_str`): an optional
leading `+`, then one or more ASCII digits, and the value fits in `u32`.
Returns `none` exactly when Rust returns `Err(_)`. -/
def parseU32 (s : String) : Option Nat :=
  match s.data with
  | '+' :: rest => parseDigits rest
  | l => parseDigits l

/-- The `GuessingGame` application state struct from `src/src/main.rs`. -/
structure GuessingGame where
  secret_number : Nat
  guess : String
  message : String
  deriving DecidableEq, Repr

/-- The `Message` event enum from `src/src/main.rs`. -/
inductive Msg where
  | GuessInputChanged (value : String)
  | GuessButtonPressed
  deriving DecidableEq, Repr

/-- Modelled from the spec and the `rand` crate contract:
`rand::thread_rng().gen_range(1..=100)` draws uniformly from the closed
range [1, 100].  The thread RNG itself is external to the repository, so
it is modelled by an arbitrary natural source `r`; `gen_range` maps it
uniformly onto [1, 100]. -/
def gen_range_1_to_100 (r : Nat) : Nat := 1 + r % 100

/-- `GuessingGame::new`: draw the secret, start with an empty guess and
the welcome message (the `Command::none()` part carries no state). -/
def new (r : Nat) : GuessingGame :=
  { secret_number := gen_range_1_to_100 r
    guess := ""
    message := "Welcome to the Guessing Game!" }

/-- `GuessingGame::update`, the state transition function.  The Rust
code mutates `self` in place and returns `Command::none()`; the
embedding returns the next state.  The parse failure arm returns early
(so `guess` is not cleared there); the success arm matches on
`guess.cmp(&self.secret_number)` and then clears the input. -/
def update (g : GuessingGame) (m : Msg) : GuessingGame :=
  match m with
  | Msg.GuessInputChanged value => { g with guess := value }
  | Msg.GuessButtonPressed =>
    match parseU32 (rustTrim g.guess) with
    | none => { g with message := "Please enter a valid number." }
    | some guess =>
      let g' :=
        match compare guess g.secret_number with
        | Ordering.lt => { g with message := "Too small!" }
        | Ordering.gt => { g with message := "Too big!" }
        | Ordering.eq => { g with message := "You win! 🎉" }
      { g' with guess := "" }

/-! Helper lemmas about trimming. -/

theorem dropWhile_append_of_all (p : Char → Bool) (w l : List Char)
    (h : ∀ c ∈ w, p c) : (w ++ l).dropWhile p = l.dropWhile p := by
  induction w with
  | nil => rfl
  | cons a w ih =>
    simp only [List.cons_append, List.dropWhile_cons,
      h a (List.mem_cons_self a w), if_true]
    exact ih fun c hc => h c (List.mem_cons_of_mem a hc)

theorem dropWhile_append_of_ne_nil (p : Char → Bool) (a b : List Char)
    (h : a.dropWhile p ≠ []) : (a ++ b).dropWhile p = a.dropWhile p ++ b := by
  induction a with
  | nil => simp [List.dropWhile] at h
  | cons x a ih =>
    by_cases hx : p x
    · simp only [List.dropWhile_cons, hx, if_true] at h
      simp only [List.cons_append, List.dropWhile_cons, hx, if_true]
      exact ih h
    · simp [List.dropWhile_cons, hx]

theorem trimChars_pad (w1 w2 s : List Char)
    (h1 : ∀ c ∈ w1, isWsChar c) (h2 : ∀ c ∈ w2, isWsChar c) :
    trimChars (w1 ++ s ++ w2) = trimChars s := by
  unfold trimChars
  rw [List.append_assoc, dropWhile_append_of_all _ w1 _ h1]
  by_cases h : s.dropWhile isWsChar = []
  · have hs : ∀ c ∈ s, isWsChar c := List.dropWhile_eq_nil_iff.mp h
    rw [dropWhile_append_of_all _ s _ hs, List.dropWhile_eq_nil_iff.mpr h2, h]
  · rw [dropWhile_append_of_ne_nil _ _ _ h, List.reverse_append,
      dropWhile_append_of_all _ w2.reverse _
        fun c hc => h2 c (List.mem_reverse.mp hc)]

theorem rustTrim_pad (w1 w2 s : String)
    (h1 : ∀ c ∈ w1.data, isWsChar c) (h2 : ∀ c ∈ w2.data, isWsChar c) :
    rustTrim (w1 ++ s ++ w2) = rustTrim s := by
  unfold rustTrim
  rw [String.data_append, String.data_append, trimChars_pad _ _ _ h1 h2]

/-! Characterization of the submit transition. -/

theorem update_submit_some (st : GuessingGame) (gv : Nat)
    (hp : parseU32 (rustTrim st.guess) = some gv) :
    update st Msg.GuessButtonPressed =
      { st with
        guess := ""
        message :=
          if gv < st.secret_number then "Too small!"
          else if st.secret_number < gv then "Too big!"
          else "You win! 🎉" } := by
  simp only [update, hp]
  cases hc : compare gv st.secret_number with
  | lt =>
    have h := Nat.compare_eq_lt.mp hc
    simp [h]
  | eq =>
    have h := Nat.compare_eq_eq.mp hc
    simp [h]
  | gt =>
    have h := Nat.compare_eq_gt.mp hc
    simp [h, Nat.lt_asymm h]

theorem parseDigits_lt_u32_size (l : List Char) (n : Nat)
    (h : parseDigits l = some n) : n < 2 ^ 32 := by
  unfold parseDigits at h
  split at h
  · split at h
    · injection h with h
      omega
    · exact absurd h (by simp)
  · exact absurd h (by simp)

theorem parseU32_lt_u32_size (s : String) (n : Nat)
    (h : parseU32 s = some n) : n < 2 ^ 32 := by
  unfold parseU32 at h
  split at h <;> exact parseDigits_lt_u32_size _ _ h

/-! Claim theorems. -/

/-- C1: for every state whose secret is in [1, 100] and every submit
event whose trimmed guess text parses as a `u32` value `gv`, the
transition sets `message` to "Too small!" when `gv` is below the secret,
"Too big!" when above, "You win! 🎉" when equal, and clears the guess
text. -/
theorem submit_parsed_feedback (st : GuessingGame) (gv : Nat)
    (hs1 : 1 ≤ st.secret_number) (hs2 : st.secret_number ≤ 100)
    (hp : parseU32 (rustTrim st.guess) = some gv) :
    ((gv < st.secret_number →
        (update st Msg.GuessButtonPressed).message = "Too small!") ∧
     (gv > st.secret_number →
        (update st Msg.GuessButtonPressed).message = "Too big!") ∧
     (gv = st.secret_number →
        (update st Msg.GuessButtonPressed).message = "You win! 🎉")) ∧
    (update st Msg.GuessButtonPressed).guess = "" := by
  rw [update_submit_some st gv hp]
  refine ⟨⟨?_, ?_, ?_⟩, rfl⟩
  · intro h
    simp [h]
  · intro h
    simp [h, Nat.lt_asymm h]
  · intro h
    simp [h]

theorem submit_parsed_feedback_witness :
    (1 ≤ (50 : Nat) ∧ (50 : Nat) ≤ 100 ∧
      parseU32 (rustTrim "10") = some 10) ∧
    (update ⟨50, "10", "Welcome to the Guessing Game!"⟩
        Msg.GuessButtonPressed).message = "Too small!" ∧
    (update ⟨50, "10", "Welcome to the Guessing Game!"⟩
        Msg.GuessButtonPressed).guess = "" :=
  ⟨⟨by decide, by decide, by decide⟩,
    (submit_parsed_feedback ⟨50, "10", "Welcome to the Guessing Game!"⟩ 10
      (by decide) (by decide) (by decide)).1.1 (by decide),
    (submit_parsed_feedback ⟨50, "10", "Welcome to the Guessing Game!"⟩ 10
      (by decide) (by decide) (by decide)).2⟩

/-- C2: when the trimmed guess text does not parse as a `u32`, the
submit transition sets `message` to "Please enter a valid number.",
leaves `guess` and `secret_number` unchanged, and its result does not
depend on the secret at all (no comparison happens). -/
theorem submit_parse_failure (st : GuessingGame)
    (hp : parseU32 (rustTrim st.guess) = none) :
    (update st Msg.GuessButtonPressed).message =
        "Please enter a valid number." ∧
    (update st Msg.GuessButtonPressed).guess = st.guess ∧
    (update st Msg.GuessButtonPressed).secret_number = st.secret_number ∧
    ∀ n, update { st with secret_number := n } Msg.GuessButtonPressed =
      { st with secret_number := n
                message := "Please enter a valid number." } := by
  refine ⟨?_, ?_, ?_, fun n => ?_⟩ <;> simp [update, hp]

theorem submit_parse_failure_witness :
    parseU32 (rustTrim "abc") = none ∧
    (update ⟨50, "abc", "w"⟩ Msg.GuessButtonPressed).message =
        "Please enter a valid number." ∧
    (update ⟨50, "abc", "w"⟩ Msg.GuessButtonPressed).guess = "abc" :=
  ⟨by decide,
    (submit_parse_failure ⟨50, "abc", "w"⟩ (by decide)).1,
    (submit_parse_failure ⟨50, "abc", "w"⟩ (by decide)).2.1⟩

/-- C3 counterexample: submitting a non-parsing guess does not clear the
guess text, so "guessText is empty after every submit" is false. -/
theorem submit_clears_guess_cex :
    ¬ (update ⟨50, "foo", "Welcome to the Guessing Game!"⟩
        Msg.GuessButtonPressed).guess = "" := by
  decide

/-- C3 amended: after a submit whose trimmed guess text parses as a
`u32` the guess text is cleared to empty; after a submit whose guess
text fails to parse, the guess text is left unchanged. -/
theorem submit_clears_guess_on_success (st : GuessingGame) :
    (∀ gv, parseU32 (rustTrim st.guess) = some gv →
      (update st Msg.GuessButtonPressed).guess = "") ∧
    (parseU32 (rustTrim st.guess) = none →
      (update st Msg.GuessButtonPressed).guess = st.guess) := by
  constructor
  · intro gv hp
    rw [update_submit_some st gv hp]
  · intro hp
    simp [update, hp]

theorem submit_clears_guess_on_success_witness :
    (update ⟨50, "10", "w"⟩ Msg.GuessButtonPressed).guess = "" :=
  (submit_clears_guess_on_success ⟨50, "10", "w"⟩).1 10 (by decide)

/-- C4: every event, input change or submit (winning submits included),
leaves the secret unchanged; the secret is never regenerated. -/
theorem secret_immutable (st : GuessingGame) (m : Msg) :
    (update st m).secret_number = st.secret_number := by
  cases m with
  | GuessInputChanged t => rfl
  | GuessButtonPressed =>
    cases hp : parseU32 (rustTrim st.guess) with
    | none => simp [update, hp]
    | some gv =>
      cases hc : compare gv st.secret_number <;> simp [update, hp, hc]

/-- C5: the startup state has a secret in the closed range [1, 100]
(drawn uniformly: each value in [1, 100] is hit by exactly one residue
class of the random source), an empty guess text, and the welcome
message. -/
theorem new_initial_state (r : Nat) :
    1 ≤ (new r).secret_number ∧ (new r).secret_number ≤ 100 ∧
    (new r).guess = "" ∧
    (new r).message = "Welcome to the Guessing Game!" ∧
    ∀ k, 1 ≤ k → k ≤ 100 →
      (Finset.filter (fun x => gen_range_1_to_100 x = k)
        (Finset.range 100)).card = 1 := by
  refine ⟨?_, ?_, rfl, rfl, ?_⟩
  · simp only [new, gen_range_1_to_100]
    omega
  · simp only [new, gen_range_1_to_100]
    omega
  · intro k hk1 hk2
    rw [Finset.card_eq_one]
    refine ⟨k - 1, ?_⟩
    ext x
    simp only [Finset.mem_filter, Finset.mem_range, Finset.mem_singleton,
      gen_range_1_to_100]
    omega

theorem new_initial_state_witness :
    (1 ≤ (new 0).secret_number ∧ (new 0).secret_number ≤ 100 ∧
      (new 0).guess = "" ∧
      (new 0).message = "Welcome to the Guessing Game!") ∧
    (Finset.filter (fun x => gen_range_1_to_100 x = 100)
      (Finset.range 100)).card = 1 :=
  ⟨⟨(new_initial_state 0).1, (new_initial_state 0).2.1,
      (new_initial_state 0).2.2.1, (new_initial_state 0).2.2.2.1⟩,
    (new_initial_state 0).2.2.2.2 100 (by decide) (by decide)⟩

/-- C6: submitting a guess padded with leading and trailing whitespace
behaves exactly like submitting the unpadded guess, whenever the
unpadded guess parses. -/
theorem padded_guess_submit_eq (st : GuessingGame) (s w1 w2 : String)
    (h1 : ∀ c ∈ w1.data, isWsChar c) (h2 : ∀ c ∈ w2.data, isWsChar c)
    (gv : Nat) (hp : parseU32 (rustTrim s) = some gv) :
    update { st with guess := w1 ++ s ++ w2 } Msg.GuessButtonPressed =
      update { st with guess := s } Msg.GuessButtonPressed := by
  have ht : rustTrim (w1 ++ s ++ w2) = rustTrim s := rustTrim_pad w1 w2 s h1 h2
  simp only [update, ht, hp]
  cases hc : compare gv st.secret_number <;> simp [hc]

theorem padded_guess_submit_eq_witness :
    update ⟨42, "  50  ", "w"⟩ Msg.GuessButtonPressed =
      update ⟨42, "50", "w"⟩ Msg.GuessButtonPressed :=
  padded_guess_submit_eq ⟨42, "", "w"⟩ "50" "  " "  "
    (by decide) (by decide) 50 (by decide)

/-- C7: an input-changed event sets the guess text to exactly the
carried text and leaves the message and the secret unchanged; it never
fails. -/
theorem input_changed_sets_guess (st : GuessingGame) (t : String) :
    update st (Msg.GuessInputChanged t) = { st with guess := t } ∧
    (update st (Msg.GuessInputChanged t)).guess = t ∧
    (update st (Msg.GuessInputChanged t)).message = st.message ∧
    (update st (Msg.GuessInputChanged t)).secret_number =
      st.secret_number :=
  ⟨rfl, rfl, rfl, rfl⟩

/-- C8: two consecutive input-changed events with the same text leave
the state exactly as one such event does (last write wins). -/
theorem input_changed_idempotent (st : GuessingGame) (t : String) :
    update (update st (Msg.GuessInputChanged t)) (Msg.GuessInputChanged t) =
      update st (Msg.GuessInputChanged t) :=
  rfl

/-- C9: the transition function is total: every state and event yields a
successor state, and the invalid-input case is recovered locally into
the message "Please enter a valid number." rather than escaping as an
error. -/
theorem update_total (st : GuessingGame) (m : Msg) :
    (∃ st', update st m = st') ∧
    (m = Msg.GuessButtonPressed → parseU32 (rustTrim st.guess) = none →
      update st m = { st with message := "Please enter a valid number." }) := by
  refine ⟨⟨update st m, rfl⟩, ?_⟩
  rintro rfl hp
  simp [update, hp]

theorem update_total_witness :
    update ⟨50, "abc", "w"⟩ Msg.GuessButtonPressed =
      ⟨50, "abc", "Please enter a valid number."⟩ :=
  (update_total ⟨50, "abc", "w"⟩ Msg.GuessButtonPressed).2 rfl (by decide)

/-- C10: the parsed guess is never range-checked against [1, 100]: any
parsed value above 100 (hence above the secret, which lies in [1, 100])
is treated as a valid guess and answered with "Too big!", and the guess
text is cleared; parsing itself only bounds the value by the `u32`
width. -/
theorem large_guess_too_big (st : GuessingGame) (gv : Nat)
    (hs1 : 1 ≤ st.secret_number) (hs2 : st.secret_number ≤ 100)
    (hp : parseU32 (rustTrim st.guess) = some gv) (hg : 100 < gv) :
    (update st Msg.GuessButtonPressed).message = "Too big!" ∧
    (update st Msg.GuessButtonPressed).guess = "" ∧
    gv < 2 ^ 32 := by
  have h : st.secret_number < gv := lt_of_le_of_lt hs2 hg
  rw [update_submit_some st gv hp]
  exact ⟨by simp [h, Nat.lt_asymm h], rfl, parseU32_lt_u32_size _ _ hp⟩

theorem large_guess_too_big_witness :
    (update ⟨50, "4294967295", "w"⟩ Msg.GuessButtonPressed).message =
        "Too big!" ∧
    (update ⟨50, "4294967295", "w"⟩ Msg.GuessButtonPressed).guess = "" ∧
    (4294967295 : Nat) < 2 ^ 32 :=
  large_guess_too_big ⟨50, "4294967295", "w"⟩ 4294967295
    (by decide) (by decide) (by decide) (by decide)

end GuessingGameSpec

